import Mathlib

/-!
Shallow embedding of the HL-2000-HP-232R halogen-lamp driver
(file HL_2000_HP_232R_control.py of lumed-mtl/lumed_HL2000_HP_232R).

The driver is a thin wrapper over a serial transport.  We embed the
Python code as pure Lean functions:

* dynamic Python values that flow into the `LampInfo` dataclass are
  modelled by `PyVal` (a string, a float, or Python `None`);
* Python floats that matter here are either a parsed decimal number or
  the `nan` sentinel, so they are modelled symbolically by `PyFloat`
  (rationals plus `nan` and signed `inf` markers; no rounding is
  modelled, the driver never computes with these values, it only
  parses and stores them);
* a raised-and-propagated Python exception is an `Except.error` carrying
  a `PyErr` naming the exception class;
* the serial transport is modelled by `Dev`: for each command message,
  whether the low-level `write` raises, and the successive lines that
  `read_raw` would deliver before a read raises (list exhausted =
  the next `read_raw` raises, e.g. a timeout).

The pyvisa resource handle is modelled by `SerialHandle`; per pyvisa,
`close()` on an already-closed resource raises `InvalidSession`, and in
plain Python calling `.close()` on `None` raises `AttributeError`.
-/

deriving instance DecidableEq for Except

namespace HL2000

/-- Python exception classes that the embedded code can raise. -/
inductive PyErr where
  | typeError : PyErr
  | valueError : PyErr
  | attributeError : PyErr
  | indexError : PyErr
  | invalidSession : PyErr
deriving DecidableEq, Repr

/-- Symbolic model of a Python float: the values the driver stores are
either parsed decimal numbers (kept exactly as rationals), the `nan`
sentinel used by `LampInfo` for unknown telemetry, or a signed
infinity. -/
inductive PyFloat where
  | nan : PyFloat
  | inf : Bool → PyFloat
  | val : ℚ → PyFloat
deriving DecidableEq, Repr

/-- Dynamic Python value stored in a `LampInfo` field: the dataclass is
annotated with `str`/`float` but at runtime also receives `None`
(a failed query) and raw reply strings. -/
inductive PyVal where
  | pynone : PyVal
  | str : String → PyVal
  | float : PyFloat → PyVal
deriving DecidableEq, Repr

/-- Characters stripped by Python `str.strip()` with no argument. -/
def pyIsSpace (c : Char) : Bool :=
  c == ' ' || c == '\t' || c == '\n' || c == '\r' || c == '\x0b' || c == '\x0c'

/-- Strip characters satisfying `p` from both ends of a string, as
Python `str.strip` does. -/
def pyStripBy (p : Char → Bool) (s : String) : String :=
  ⟨((s.toList.dropWhile p).reverse.dropWhile p).reverse⟩

/-- Python `s.strip()` (whitespace on both ends). -/
def pyStripWs (s : String) : String := pyStripBy pyIsSpace s

/-- Python `s.strip("\r\n")` as used by `get_driver_current`. -/
def pyStripCRLF (s : String) : String :=
  pyStripBy (fun c => c == '\r' || c == '\n') s

/-- Value of a list of decimal digit characters. -/
def digitsToNat (l : List Char) : Nat :=
  l.foldl (fun a c => 10 * a + (c.toNat - 48)) 0

/-- Optional sign followed by a nonempty run of digits, nothing after:
the exponent part of a Python float literal. -/
def parseSignedDigits (cs : List Char) : Option ℤ :=
  let sgn : Bool × List Char :=
    match cs with
    | '+' :: t => (false, t)
    | '-' :: t => (true, t)
    | _ => (false, cs)
  if sgn.2 ≠ [] ∧ sgn.2.all Char.isDigit then
    some (if sgn.1 then -(digitsToNat sgn.2 : ℤ) else (digitsToNat sgn.2 : ℤ))
  else none

/-- Mantissa of a Python float literal: `D+`, `D+.D*` or `D*.D+`.
Returns the digit value (fraction digits appended to the integer
digits), the number of fraction digits, and the unconsumed rest. -/
def parseMantissa (cs : List Char) : Option ((Nat × Nat) × List Char) :=
  let ip := cs.takeWhile Char.isDigit
  let r1 := cs.dropWhile Char.isDigit
  match r1 with
  | '.' :: t =>
    let fp := t.takeWhile Char.isDigit
    let r2 := t.dropWhile Char.isDigit
    if ip = [] ∧ fp = [] then none
    else some ((digitsToNat (ip ++ fp), fp.length), r2)
  | _ => if ip = [] then none else some ((digitsToNat ip, 0), r1)

/-- Exponent part: empty, or `e`/`E` followed by a signed digit run. -/
def parseExp (cs : List Char) : Option ℤ :=
  match cs with
  | [] => some 0
  | 'e' :: t => parseSignedDigits t
  | 'E' :: t => parseSignedDigits t
  | _ => none

/-- Model of the CPython builtin `float(str)`: strips whitespace, then
accepts an optionally signed decimal literal with optional fraction and
exponent, or the special words nan/inf/infinity (case-insensitive).
`none` models `float` raising `ValueError`.  (Digit-group underscores
are not modelled; the device protocol never produces them.) -/
def pyFloatParse (s : String) : Option PyFloat :=
  let cs := (pyStripWs s).toList
  let sgn : Bool × List Char :=
    match cs with
    | '+' :: t => (false, t)
    | '-' :: t => (true, t)
    | _ => (false, cs)
  let low := sgn.2.map Char.toLower
  if low = "nan".toList then some PyFloat.nan
  else if low = "inf".toList ∨ low = "infinity".toList then some (PyFloat.inf sgn.1)
  else
    match parseMantissa sgn.2 with
    | none => none
    | some mr =>
      match parseExp mr.2 with
      | none => none
      | some e =>
        let sgnZ : ℤ := if sgn.1 then -1 else 1
        let p : ℤ := e - (mr.1.2 : ℤ)
        some (PyFloat.val
          (if 0 ≤ p then mkRat (sgnZ * (mr.1.1 : ℤ) * ((10 ^ p.toNat : Nat) : ℤ)) 1
           else mkRat (sgnZ * (mr.1.1 : ℤ)) (10 ^ (-p).toNat)))

/-- Model of the serial transport as seen through pyvisa: for each
command message, whether the low-level `write` succeeds (false = it
raises, e.g. no open handle), and the successive lines `read_raw`
delivers; once the list is exhausted the next `read_raw` raises
(timeout).  A driver whose `pyvisa_serial` is `None` corresponds to
`writeOk` constantly false (every attribute access on `None` raises). -/
structure Dev where
  writeOk : String → Bool
  reads : String → List String

/-- Acknowledgement line the device echoes before some answers;
`read_raw().decode()` keeps the terminator. -/
def okLine : String := "OK\r\n"

/-- The read loop of `_safe_scpi_query` (lines 107-110): keep reading
while the line equals `OK\r\n`; return the first other line; if a read
raises first (list exhausted) the exception is caught and the function
returns `None`. -/
def dropOks : List String → Option String
  | [] => none
  | l :: ls => if l == okLine then dropOks ls else some l

/-- Embedding of `HL2000Lamp._safe_scpi_query` (lines 94-112): write the
message, then loop past `OK\r\n` echoes; any exception (failed write or
a read raising before a substantive line arrives) is caught and logged,
and the function returns `None`. -/
def safe_scpi_query (dev : Dev) (message : String) : Option String :=
  if dev.writeOk message then dropOks (dev.reads message) else none

end HL2000

namespace HL2000

/-- One read of `_safe_scpi_query`, modelled over a possibly infinite
stream of reads with explicit fuel, to study termination of the
`while reading == OK` loop.  `reads i = none` models the i-th
`read_raw` raising (caught, logged, query returns `None`);
`stillRunning` means the loop has not exited within the given fuel. -/
inductive QueryOutcome where
  | payload : String → QueryOutcome
  | excCaught : QueryOutcome
  | stillRunning : QueryOutcome
deriving DecidableEq, Repr

/-- Fuel-indexed unfolding of the read loop of `_safe_scpi_query` over
an unbounded read stream. -/
def scpiQueryLoop (reads : Nat → Option String) : Nat → Nat → QueryOutcome
  | _, 0 => QueryOutcome.stillRunning
  | i, n + 1 =>
    match reads i with
    | none => QueryOutcome.excCaught
    | some l => if l == okLine then scpiQueryLoop reads (i + 1) n else QueryOutcome.payload l

end HL2000

namespace HL2000

/-- Embedding of the `LampInfo` dataclass (lines 16-23).  The Python
annotations say `str`/`float`, but at runtime the constructor also
receives `None` (failed query) and raw reply strings, so the non-bool
fields hold a `PyVal`.  The field defaults are the dataclass defaults:
the unknown sentinels. -/
structure LampInfo where
  firmware_version : PyVal := PyVal.str "N/A"
  is_connected : Bool := false
  is_enabled : Bool := false
  coil_temperature : PyVal := PyVal.float PyFloat.nan
  shutter_position : PyVal := PyVal.float PyFloat.nan
  driver_current : PyVal := PyVal.float PyFloat.nan
deriving DecidableEq, Repr

/-- The all-unknown snapshot `LampInfo()` built from the dataclass
defaults. -/
def LampInfo.unknown : LampInfo := {}

/-- Model of a pyvisa serial resource handle as the driver uses it:
whether `close()` has been called, and the two line-terminator
attributes set by `connect`. -/
structure SerialHandle where
  closed : Bool := false
  write_termination : Option String := none
  read_termination : Option String := none
deriving DecidableEq, Repr

/-- Mutable fields of `HL2000Lamp` touched by the embedded operations
(`__init__`, lines 27-38).  The mutex, the resource manager and the
cached `info`/`shutter_position` fields play no role in the modelled
operations and are omitted. -/
structure DriverState where
  firmware_version : Option String := none
  comport : Option String := none
  pyvisa_serial : Option SerialHandle := none
  isconnected : Bool := false
  isenabled : Bool := false
  drive : Bool := false
deriving DecidableEq, Repr

/-- Freshly constructed driver: `HL2000Lamp()`. -/
def initState : DriverState := {}

/-- Observable effect of one `_safe_scpi_write` call: which messages
reached `pyvisa_serial.write`, and which exceptions were logged. -/
structure WriteEffect where
  sent : List String := []
  logged : List String := []
deriving DecidableEq, Repr

/-- Concatenation of two write effects in program order. -/
def WriteEffect.app (a b : WriteEffect) : WriteEffect :=
  ⟨a.sent ++ b.sent, a.logged ++ b.logged⟩

/-- Embedding of `HL2000Lamp._safe_scpi_write` (lines 71-92): when not
connected it returns immediately without touching the transport;
otherwise it attempts the write, and an exception from the transport
(`wOk = false`) is caught and logged.  The function never raises and
never changes the driver state. -/
def safe_scpi_write (st : DriverState) (wOk : Bool) (message : String) : WriteEffect :=
  if st.isconnected = false then {}
  else if wOk then { sent := [message] }
  else { sent := [message], logged := [message] }

/-- Embedding of `HL2000Lamp.set_enable` (lines 263-275): writes `SO`
or `CO` through `_safe_scpi_write` and sets `isenabled` to the request,
whether or not the write went through. -/
def set_enable (st : DriverState) (wOk : Bool) (enable : Bool) : DriverState × WriteEffect :=
  if enable then ({ st with isenabled := true }, safe_scpi_write st wOk "SO")
  else ({ st with isenabled := false }, safe_scpi_write st wOk "CO")

/-- Embedding of `HL2000Lamp.set_drive` (lines 291-302): writes `EN` or
`DI` and sets the `drive` flag to the request. -/
def set_drive (st : DriverState) (wOk : Bool) (enable : Bool) : DriverState × WriteEffect :=
  if enable then ({ st with drive := true }, safe_scpi_write st wOk "EN")
  else ({ st with drive := false }, safe_scpi_write st wOk "DI")

/-- Semantics of `self.pyvisa_serial.close()`: on `None` Python raises
`AttributeError`; pyvisa raises `InvalidSession` when the resource was
already closed; otherwise the session is marked closed. -/
def closeSerial : Option SerialHandle → Except PyErr SerialHandle
  | none => Except.error PyErr.attributeError
  | some h => if h.closed then Except.error PyErr.invalidSession
              else Except.ok { h with closed := true }

/-- Embedding of `HL2000Lamp.connect` (lines 306-316): `openOk` tells
whether `open_resource(self.comport)` succeeds, in which case a fresh
handle is stored, both terminators are set to CRLF and the connected
flag is raised; any exception is caught, the connected flag is lowered
and the handle keeps its previous value.  Returns the new state and the
returned `self.isconnected`. -/
def connect (st : DriverState) (openOk : Bool) : DriverState × Bool :=
  if openOk then
    ({ st with
        pyvisa_serial := some { closed := false, write_termination := some "\r\n",
                                read_termination := some "\r\n" },
        isconnected := true }, true)
  else ({ st with isconnected := false }, false)

/-- Result of a `disconnect` call: the transport writes and logs it
produced, and either the final state with the returned value
`not self.isconnected`, or the exception it raised. -/
structure DisconnectResult where
  effect : WriteEffect
  outcome : Except PyErr (DriverState × Bool)
deriving Repr

/-- Embedding of `HL2000Lamp.disconnect` (lines 318-326): best-effort
`set_enable(False)` and `set_drive(False)` (their transport failures
`wCO`/`wDI` are swallowed by `_safe_scpi_write`), then
`self.pyvisa_serial.close()` — which is NOT guarded and raises when
there is no open session — then the connected flag is lowered, the
cached firmware identity cleared, and `not self.isconnected` returned. -/
def disconnect (st : DriverState) (wCO wDI : Bool) : DisconnectResult :=
  let r1 := set_enable st wCO false
  let r2 := set_drive r1.1 wDI false
  match closeSerial r2.1.pyvisa_serial with
  | Except.error e => ⟨r1.2.app r2.2, Except.error e⟩
  | Except.ok h =>
    let st3 : DriverState :=
      { r2.1 with pyvisa_serial := some h, isconnected := false, firmware_version := none }
    ⟨r1.2.app r2.2, Except.ok (st3, true)⟩

/-- Embedding of `HL2000Lamp.get_firmware_version` (lines 247-253):
returns the raw `_safe_scpi_query("VER")` result, `None` included. -/
def get_firmware_version (dev : Dev) : Option String :=
  safe_scpi_query dev "VER"

/-- Embedding of `HL2000Lamp.get_coil_temperature` (lines 162-169):
`float()` applied to the query result raises `TypeError` on `None` and
`ValueError` on a string that does not parse as a float. -/
def get_coil_temperature (dev : Dev) : Except PyErr PyFloat :=
  match safe_scpi_query dev "TEM" with
  | none => Except.error PyErr.typeError
  | some s =>
    match pyFloatParse s with
    | none => Except.error PyErr.valueError
    | some x => Except.ok x

/-- Embedding of `HL2000Lamp.get_shutter_position` (lines 171-179): the
float conversion is commented out in the source, so the raw query
result (possibly `None`) is returned unchanged. -/
def get_shutter_position (dev : Dev) : Option String :=
  safe_scpi_query dev "POS"

/-- Embedding of `HL2000Lamp.get_driver_current` (lines 254-260):
`.strip("\r\n")` on a `None` query result raises `AttributeError`,
then `float()` raises `ValueError` on an unparsable payload. -/
def get_driver_current (dev : Dev) : Except PyErr PyFloat :=
  match safe_scpi_query dev "GRC" with
  | none => Except.error PyErr.attributeError
  | some s =>
    match pyFloatParse (pyStripCRLF s) with
    | none => Except.error PyErr.valueError
    | some x => Except.ok x

/-- Fault flags decoded by `get_fault_status` (dict keys
Over-temperature, Over-current, Under-voltage, Over-voltage). -/
structure FaultDict where
  over_temperature : Bool := false
  over_current : Bool := false
  under_voltage : Bool := false
  over_voltage : Bool := false
deriving DecidableEq, Repr

/-- Parsing part of `HL2000Lamp.get_fault_status` (lines 141-160): the
dict starts all-false and each of the first four characters is compared
to "1" independently; indexing past the end of the reply raises
`IndexError`. -/
def faultStatusOf (fault_status : String) : Except PyErr FaultDict :=
  let cs := fault_status.toList
  match cs.get? 0, cs.get? 1, cs.get? 2, cs.get? 3 with
  | some c0, some c1, some c2, some c3 =>
    Except.ok { over_temperature := c0 == '1', over_current := c1 == '1',
                under_voltage := c2 == '1', over_voltage := c3 == '1' }
  | _, _, _, _ => Except.error PyErr.indexError

/-- Embedding of `HL2000Lamp.get_fault_status` (lines 130-160):
subscripting a `None` query result raises `TypeError`. -/
def get_fault_status (dev : Dev) : Except PyErr FaultDict :=
  match safe_scpi_query dev "GFS" with
  | none => Except.error PyErr.typeError
  | some s => faultStatusOf s

/-- Motion-controller status dict built by
`get_motion_control_status`; every value starts as `None`. -/
structure MotionDict where
  motion_mode : Option String := none
  speed_command_input : Option String := none
  speed_command_power : Option String := none
  amplifier : Option String := none
  position_state : Option String := none
  external_switch_edge_state : Option String := none
  external_switch_level_state : Option String := none
deriving DecidableEq, Repr

/-- One `if c == "0": zero elif c == "1": one` decoding step; any other
character leaves the dict entry at `None`. -/
def bitChoice (c : Char) (zero one : String) : Option String :=
  if c == '0' then some zero else if c == '1' then some one else none

/-- Parsing part of `HL2000Lamp.get_motion_control_status`
(lines 202-245), decoding each of the seven characters independently.
Note that for character 6 the code maps "0" to "high" and "1" to "low",
which is the opposite of its own docstring (lines 196-197).  Indexing
past the end of the string raises `IndexError`. -/
def motionStatusOf (motion_control_status : String) : Except PyErr MotionDict :=
  let cs := motion_control_status.toList
  match cs.get? 0, cs.get? 1, cs.get? 2, cs.get? 3, cs.get? 4, cs.get? 5, cs.get? 6 with
  | some c0, some c1, some c2, some c3, some c4, some c5, some c6 =>
    Except.ok { motion_mode := bitChoice c0 "velocity" "position",
                speed_command_input := bitChoice c1 "rs232" "analog",
                speed_command_power := bitChoice c2 "analog voltage" "PWM",
                amplifier := bitChoice c3 "disabled" "enabled",
                position_state := bitChoice c4 "not in position" "in position",
                external_switch_edge_state :=
                  bitChoice c5 "Falling edge is valid" "Rising edge is valid",
                external_switch_level_state := bitChoice c6 "high" "low" }
  | _, _, _, _, _, _, _ => Except.error PyErr.indexError

/-- Embedding of `HL2000Lamp.get_motion_control_status`
(lines 181-245): the query result goes through `str()` first, so a
`None` result becomes the four-character string "None" (whose decoding
then raises `IndexError` at position 4). -/
def get_motion_control_status (dev : Dev) : String × Except PyErr MotionDict :=
  let m := match safe_scpi_query dev "GST" with
           | none => "None"
           | some s => s
  (m, motionStatusOf m)

/-- Conversion of a Python value that is either a string or `None`
(a failed query) into the dynamic value stored in a `LampInfo` field. -/
def pyOfOptStr : Option String → PyVal
  | none => PyVal.pynone
  | some s => PyVal.str s

/-- Sequence of sub-queries of `get_info` that can raise, run inside
its `try` block (lines 332-345): firmware version (cannot raise), the
cached enabled flag, coil temperature, shutter position (cannot raise)
and driver current, assembled into a connected snapshot. -/
def getInfoSeq (st : DriverState) (dev : Dev) : Except PyErr LampInfo :=
  let version := get_firmware_version dev
  let is_enabled := st.isenabled
  match get_coil_temperature dev with
  | Except.error e => Except.error e
  | Except.ok coil =>
    let shutter := get_shutter_position dev
    match get_driver_current dev with
    | Except.error e => Except.error e
    | Except.ok current =>
      Except.ok { firmware_version := pyOfOptStr version,
                  is_connected := true,
                  is_enabled := is_enabled,
                  coil_temperature := PyVal.float coil,
                  shutter_position := pyOfOptStr shutter,
                  driver_current := PyVal.float current }

/-- Embedding of `HL2000Lamp.get_info` (lines 328-347): all-unknown
snapshot when not connected; otherwise the query sequence runs and any
exception inside it is caught, discarding the partial results and
returning the all-unknown snapshot. -/
def get_info (st : DriverState) (dev : Dev) : LampInfo :=
  if st.isconnected = false then LampInfo.unknown
  else
    match getInfoSeq st dev with
    | Except.ok i => i
    | Except.error _ => LampInfo.unknown

/-- One serial port as `find_lamp_device` sees it.  The source walks
`resource_manage.list_resources_info()` with a running counter into
`serial.tools.list_ports.comports()`; both enumerate the serial ports
of the host, so a port record carries the resource name, the pyvisa
ResourceInfo metadata (kept opaque as a string), the pyserial
description consulted for the Bluetooth filter, and the probe outcome:
`none` when `open_resource` or the `VER` query raises, `some r` when
the query answers `r`. -/
structure ProbePort where
  name : String
  rinfo : String
  description : String
  probe : Option String
deriving DecidableEq, Repr

/-- Python substring operator `needle in hay`. -/
def containsSub (needle hay : String) : Bool :=
  (hay.toList.tails).any (fun t => needle.toList.isPrefixOf t)

/-- Value stored for a discovered lamp:
`{"resourceInfo": v, "version": version.strip()}` where `version` was
already stripped once when read. -/
structure DiscoveryEntry where
  rinfo : String
  version : String
deriving DecidableEq, Repr

/-- Marker excluding wireless COM ports (line 56). -/
def bluetoothMarker : String := "Bluetooth"

/-- Marker a valid firmware reply contains (line 66). -/
def versionMarker : String := "Version"

/-- Whether a port makes it into the returned mapping: not a Bluetooth
port, its probe answered, and the stripped answer contains the version
marker. -/
def qualifiesPort (p : ProbePort) : Bool :=
  !containsSub bluetoothMarker p.description &&
  (match p.probe with
   | none => false
   | some r => containsSub versionMarker (pyStripWs r))

/-- Entry recorded for a qualifying port (the reply is stripped once on
read and once more when stored). -/
def discoveryOf (p : ProbePort) : DiscoveryEntry :=
  match p.probe with
  | some r => ⟨p.rinfo, pyStripWs (pyStripWs r)⟩
  | none => ⟨p.rinfo, ""⟩

/-- Embedding of `HL2000Lamp.find_lamp_device` (lines 40-68): for each
port, skip it when its description contains the Bluetooth marker; then
probe it, skipping on any exception; record it when the stripped reply
contains the version marker.  Insertion order of the Python dict is the
scan order. -/
def find_lamp_device : List ProbePort → List (String × DiscoveryEntry)
  | [] => []
  | p :: ps =>
    if containsSub bluetoothMarker p.description then find_lamp_device ps
    else
      match p.probe with
      | none => find_lamp_device ps
      | some r =>
        if containsSub versionMarker (pyStripWs r) then
          (p.name, ⟨p.rinfo, pyStripWs (pyStripWs r)⟩) :: find_lamp_device ps
        else find_lamp_device ps

/-- Healthy device used as concrete test input: answers every query of
the driver, with an `OK` echo before the temperature payload. -/
def devGood : Dev where
  writeOk := fun _ => true
  reads := fun m =>
    if m = "VER" then ["Version 1.2\r\n"]
    else if m = "TEM" then ["OK\r\n", "25.0\r\n"]
    else if m = "POS" then ["300\r\n"]
    else if m = "GRC" then ["125.5\r\n"]
    else if m = "GFS" then ["0000\r\n"]
    else if m = "GST" then ["1010110\r\n"]
    else []

/-- Transport of a driver whose `pyvisa_serial` is `None` (or whose
device answers nothing): every write raises, every read raises. -/
def devNoHandle : Dev where
  writeOk := fun _ => false
  reads := fun _ => []

/-- Device whose temperature query times out without any line while
everything else answers: exercises a failure in the middle of the
`get_info` sequence. -/
def devTemTimeout : Dev where
  writeOk := fun _ => true
  reads := fun m =>
    if m = "VER" then ["Version 1.2\r\n"]
    else if m = "TEM" then []
    else if m = "POS" then ["300\r\n"]
    else if m = "GRC" then ["125.5\r\n"]
    else []

/-- Driver that was assigned a port and connected successfully. -/
def connectedState : DriverState :=
  (connect { initState with comport := some "ASRL3::INSTR" } true).1

/-- Four fault bits rendered as the reply string the device sends. -/
def bitString (l : List Bool) : String :=
  ⟨l.map (fun b => if b then '1' else '0')⟩

/-- Bluetooth COM port that would even answer the version query. -/
def btProbePort : ProbePort :=
  ⟨"ASRL1::INSTR", "ri1", "Standard Serial over Bluetooth link", some "Version 9.9"⟩

/-- Port whose open or version query raises. -/
def failProbePort : ProbePort :=
  ⟨"ASRL2::INSTR", "ri2", "USB Serial Device", none⟩

/-- Port holding the lamp: answers the version query. -/
def goodProbePort : ProbePort :=
  ⟨"ASRL3::INSTR", "ri3", "USB Serial Port", some "Version 1.2\r\n"⟩

end HL2000

-- quick smoke checks (kept as anonymous examples, they are part of the
-- development and compile to nothing)
example : HL2000.pyFloatParse "125.5" = some (HL2000.PyFloat.val (mkRat 251 2)) := by decide
example : HL2000.pyFloatParse "25.0\r\n" = some (HL2000.PyFloat.val (mkRat 25 1)) := by decide
example : HL2000.pyFloatParse "OK\r\n" = none := by decide
example : HL2000.dropOks ["OK\r\n", "300\r\n"] = some "300\r\n" := by decide

example :
    HL2000.get_info HL2000.connectedState HL2000.devGood =
      { firmware_version := HL2000.PyVal.str "Version 1.2\r\n",
        is_connected := true,
        is_enabled := false,
        coil_temperature := HL2000.PyVal.float (HL2000.PyFloat.val (mkRat 25 1)),
        shutter_position := HL2000.PyVal.str "300\r\n",
        driver_current := HL2000.PyVal.float (HL2000.PyFloat.val (mkRat 251 2)) } := by decide

example :
    HL2000.get_info HL2000.connectedState HL2000.devTemTimeout = HL2000.LampInfo.unknown := by
  decide

example : HL2000.get_info HL2000.initState HL2000.devGood = HL2000.LampInfo.unknown := by decide

example : HL2000.faultStatusOf "1000" = Except.ok ⟨true, false, false, false⟩ := by decide

example :
    HL2000.motionStatusOf "1010110" =
      Except.ok ⟨some "position", some "rs232", some "PWM", some "disabled",
        some "in position", some "Rising edge is valid", some "high"⟩ := by decide

example : HL2000.get_coil_temperature HL2000.devNoHandle =
    Except.error HL2000.PyErr.typeError := by decide

example :
    (HL2000.disconnect HL2000.initState true true).outcome =
      Except.error HL2000.PyErr.attributeError := by decide

example :
    HL2000.find_lamp_device
      [⟨"ASRL1::INSTR", "ri1", "Standard Serial over Bluetooth link", some "Version 9.9"⟩,
       ⟨"ASRL2::INSTR", "ri2", "USB Serial Device", none⟩,
       ⟨"ASRL3::INSTR", "ri3", "USB Serial Port", some "Version 1.2\r\n"⟩] =
      [("ASRL3::INSTR", ⟨"ri3", "Version 1.2"⟩)] := by decide

namespace HL2000

/-- Case analysis of `get_info`: every call returns either the
all-unknown snapshot or a snapshot built entirely from the query
results of this very call, with the connected flag raised. -/
theorem get_info_cases (st : DriverState) (dev : Dev) :
    get_info st dev = LampInfo.unknown ∨
    (st.isconnected = true ∧ ∃ t c, get_coil_temperature dev = Except.ok t ∧
      get_driver_current dev = Except.ok c ∧
      get_info st dev =
        { firmware_version := pyOfOptStr (get_firmware_version dev),
          is_connected := true,
          is_enabled := st.isenabled,
          coil_temperature := PyVal.float t,
          shutter_position := pyOfOptStr (get_shutter_position dev),
          driver_current := PyVal.float c }) := by
  cases hb : st.isconnected with
  | false => left; simp [get_info, hb]
  | true =>
    cases ht : get_coil_temperature dev with
    | error e => left; simp [get_info, getInfoSeq, hb, ht]
    | ok t =>
      cases hc : get_driver_current dev with
      | error e => left; simp [get_info, getInfoSeq, hb, ht, hc]
      | ok c =>
        right
        exact ⟨rfl, t, c, rfl, rfl, by simp [get_info, getInfoSeq, hb, ht, hc]⟩

end HL2000

namespace HL2000

/-- C1: for every connected driver, `get_info()` runs the query
sequence and on any exception discards the partial results, returning
the all-unknown snapshot; every non-exceptional connected result is
built entirely from the values this call queried (firmware, enabled
flag, coil temperature, shutter position, driver current), so no
returned snapshot mixes freshly read fields with leftover unknown
sentinels. -/
theorem c1_get_info_fail_atomic (st : DriverState) (dev : Dev)
    (h : st.isconnected = true) :
    (∀ e, getInfoSeq st dev = Except.error e → get_info st dev = LampInfo.unknown) ∧
    (get_info st dev = LampInfo.unknown ∨
      ∃ t c, get_coil_temperature dev = Except.ok t ∧
        get_driver_current dev = Except.ok c ∧
        get_info st dev =
          { firmware_version := pyOfOptStr (get_firmware_version dev),
            is_connected := true,
            is_enabled := st.isenabled,
            coil_temperature := PyVal.float t,
            shutter_position := pyOfOptStr (get_shutter_position dev),
            driver_current := PyVal.float c }) := by
  constructor
  · intro e he; simp [get_info, h, he]
  · rcases get_info_cases st dev with he | ⟨_, t, c, h1, h2, he⟩
    · exact Or.inl he
    · exact Or.inr ⟨t, c, h1, h2, he⟩

/-- C1 witness: a connected driver against a healthy transport. -/
theorem c1_witness :
    connectedState.isconnected = true ∧
    (get_info connectedState devGood = LampInfo.unknown ∨
      ∃ t c, get_coil_temperature devGood = Except.ok t ∧
        get_driver_current devGood = Except.ok c ∧
        get_info connectedState devGood =
          { firmware_version := pyOfOptStr (get_firmware_version devGood),
            is_connected := true,
            is_enabled := connectedState.isenabled,
            coil_temperature := PyVal.float t,
            shutter_position := pyOfOptStr (get_shutter_position devGood),
            driver_current := PyVal.float c }) :=
  ⟨rfl, (c1_get_info_fail_atomic connectedState devGood rfl).2⟩

/-- C2: every snapshot returned by `get_info()` whose connected flag is
false is exactly the all-unknown snapshot — firmware "N/A", enabled
false, and NaN for coil temperature, shutter position and driver
current — and in particular a driver whose connected flag is down gets
that snapshot. -/
theorem c2_disconnected_means_all_unknown (st : DriverState) (dev : Dev) :
    ((get_info st dev).is_connected = false →
      (get_info st dev).firmware_version = PyVal.str "N/A" ∧
      (get_info st dev).is_enabled = false ∧
      (get_info st dev).coil_temperature = PyVal.float PyFloat.nan ∧
      (get_info st dev).shutter_position = PyVal.float PyFloat.nan ∧
      (get_info st dev).driver_current = PyVal.float PyFloat.nan ∧
      get_info st dev = LampInfo.unknown) ∧
    (st.isconnected = false → get_info st dev = LampInfo.unknown) := by
  constructor
  · intro h
    rcases get_info_cases st dev with he | ⟨_, t, c, _, _, he⟩
    · rw [he]; exact ⟨rfl, rfl, rfl, rfl, rfl, rfl⟩
    · rw [he] at h; simp at h
  · intro h; simp [get_info, h]

/-- C2 witness: a never-connected driver yields the all-unknown
snapshot even against a transport that would answer. -/
theorem c2_witness : get_info initState devGood = LampInfo.unknown :=
  (c2_disconnected_means_all_unknown initState devGood).2 rfl

end HL2000

namespace HL2000

/-- C3: disconnecting a connected driver (open session) issues the
disable commands `CO` then `DI` best-effort — regardless of whether
either transport write fails — forces both the illumination-enabled and
the drive-enabled flags to disabled, closes the transport, lowers the
connected flag, clears the cached firmware identity, and returns a
disconnected (true) status. -/
theorem c3_disconnect_forces_safe_state (st : DriverState) (h : SerialHandle)
    (wCO wDI : Bool) (hc : st.isconnected = true) (hs : st.pyvisa_serial = some h)
    (ho : h.closed = false) :
    (disconnect st wCO wDI).effect.sent = ["CO", "DI"] ∧
    (disconnect st wCO wDI).outcome =
      Except.ok ({ st with
                   isenabled := false, drive := false,
                   pyvisa_serial := some { h with closed := true },
                   isconnected := false, firmware_version := none }, true) := by
  cases wCO <;> cases wDI <;>
    simp [disconnect, set_enable, set_drive, safe_scpi_write, closeSerial,
      WriteEffect.app, hc, hs, ho]

/-- C3 witness: a connected driver with an open session, with the `CO`
write failing. -/
theorem c3_witness :
    connectedState.isconnected = true ∧
    connectedState.pyvisa_serial =
      some { closed := false, write_termination := some "\r\n",
             read_termination := some "\r\n" } ∧
    (disconnect connectedState false true).effect.sent = ["CO", "DI"] ∧
    (disconnect connectedState false true).outcome =
      Except.ok ({ connectedState with
                   isenabled := false, drive := false,
                   pyvisa_serial := some { closed := true, write_termination := some "\r\n",
                                           read_termination := some "\r\n" },
                   isconnected := false, firmware_version := none }, true) := by
  refine ⟨rfl, rfl, ?_⟩
  exact c3_disconnect_forces_safe_state connectedState
    { closed := false, write_termination := some "\r\n", read_termination := some "\r\n" }
    false true rfl rfl rfl

/-- C4: the claim that `disconnect()` on an already-disconnected driver
does not throw is violated by the code: on a freshly constructed driver
`self.pyvisa_serial` is `None`, the two disable writes are skipped by
the connected-flag guard, and `self.pyvisa_serial.close()` raises
`AttributeError`. -/
theorem c4_disconnect_when_never_connected_raises :
    (disconnect initState true true).effect.sent = [] ∧
    (disconnect initState true true).outcome = Except.error PyErr.attributeError := by
  decide

/-- C10: `connect()` never raises; it returns true and raises the
connected flag exactly when opening the transport succeeds, in which
case a fresh open session with CRLF write and read terminators is
stored; on failure the exception is caught, the connected flag is
lowered, the rest of the state is untouched, and false is returned. -/
theorem c10_connect_reports_open_outcome (st : DriverState) (openOk : Bool) :
    ((connect st openOk).2 = openOk) ∧
    ((connect st openOk).1.isconnected = openOk) ∧
    (openOk = true →
      (connect st openOk).1 =
        { st with pyvisa_serial := some { closed := false, write_termination := some "\r\n",
                                          read_termination := some "\r\n" },
                  isconnected := true }) ∧
    (openOk = false → (connect st openOk).1 = { st with isconnected := false }) := by
  cases openOk <;> simp [connect]

/-- C10 witness: a successful open on a fresh driver. -/
theorem c10_witness :
    (connect initState true).2 = true ∧
    (connect initState true).1 =
      { initState with pyvisa_serial := some { closed := false, write_termination := some "\r\n",
                                               read_termination := some "\r\n" },
                       isconnected := true } :=
  ⟨(c10_connect_reports_open_outcome initState true).1,
   (c10_connect_reports_open_outcome initState true).2.2.1 rfl⟩

end HL2000

namespace HL2000

/-- Reading past any finite run of acknowledgement-only lines without a
payload makes the query return `None` (the next read raises and is
caught). -/
theorem dropOks_all_ok (oks : List String) (hoks : ∀ x ∈ oks, x = okLine) :
    dropOks oks = none := by
  induction oks with
  | nil => rfl
  | cons a t ih =>
    have ha : a = okLine := hoks a (by simp)
    simp [dropOks, ha, ih (fun x hx => hoks x (by simp [hx]))]

/-- The first non-acknowledgement line after a finite run of
acknowledgement lines is the one returned. -/
theorem dropOks_first_payload (oks : List String) (l : String) (rest : List String)
    (hoks : ∀ x ∈ oks, x = okLine) (hl : l ≠ okLine) :
    dropOks (oks ++ l :: rest) = some l := by
  induction oks with
  | nil => simp [dropOks, hl]
  | cons a t ih =>
    have ha : a = okLine := hoks a (by simp)
    simp [dropOks, ha, ih (fun x hx => hoks x (by simp [hx]))]

/-- Against a device that sends acknowledgement lines forever, the read
loop never exits, whatever fuel it is given. -/
theorem scpiQueryLoop_const_ok (n i : Nat) :
    scpiQueryLoop (fun _ => some okLine) i n = QueryOutcome.stillRunning := by
  induction n generalizing i with
  | zero => rfl
  | succ n ih => simp [scpiQueryLoop, ih]

/-- C5 counterexample: the query loop has no overall per-query timeout.
Against a device that answers every read with the acknowledgement line
and never a payload, there is no bound within which the loop exits: for
every fuel it is still running (the elapsed-time variable `time0` of
the source is captured but never consulted). -/
theorem c5_counterexample_no_overall_timeout :
    ¬ ∃ n, scpiQueryLoop (fun _ => some okLine) 0 n ≠ QueryOutcome.stillRunning :=
  fun hn => hn.elim (fun n h => h (scpiQueryLoop_const_ok n 0))

/-- C5 amended: a query discards every consecutive `OK` acknowledgement
line and returns the first substantive payload line when one arrives
after finitely many reads, and returns `None` when the reads run out
(per-read transport timeout) — but there is no overall per-query
timeout, so termination is not guaranteed against an endless
acknowledgement stream. -/
theorem c5_query_discards_ok_lines (dev : Dev) (msg : String) (oks : List String)
    (l : String) (rest : List String) (hw : dev.writeOk msg = true)
    (hoks : ∀ x ∈ oks, x = okLine) :
    (dev.reads msg = oks ++ l :: rest → l ≠ okLine →
      safe_scpi_query dev msg = some l) ∧
    (dev.reads msg = oks → safe_scpi_query dev msg = none) := by
  constructor
  · intro hr hl
    simp [safe_scpi_query, hw, hr, dropOks_first_payload oks l rest hoks hl]
  · intro hr
    simp [safe_scpi_query, hw, hr, dropOks_all_ok oks hoks]

/-- C5 witness: the healthy device echoes one `OK` before the
temperature payload, which the query returns. -/
theorem c5_witness :
    devGood.writeOk "TEM" = true ∧
    devGood.reads "TEM" = ["OK\r\n"] ++ "25.0\r\n" :: [] ∧
    "25.0\r\n" ≠ okLine ∧
    safe_scpi_query devGood "TEM" = some "25.0\r\n" :=
  ⟨rfl, rfl, by decide,
   (c5_query_discards_ok_lines devGood "TEM" ["OK\r\n"] "25.0\r\n" [] rfl
      (by decide)).1 rfl (by decide)⟩

/-- C6 counterexample: decoding the motion-status reply "1010110" does
not give the dict the claim describes (signal = analog, amplifier =
enabled, not in position, level = low): characters 2, 3 and 4 decode to
PWM, disabled and in position, and the code maps character 6 = "0" to
"high". -/
theorem c6_counterexample_gst_decode :
    motionStatusOf "1010110" ≠
      Except.ok { motion_mode := some "position",
                  speed_command_input := some "rs232",
                  speed_command_power := some "analog voltage",
                  amplifier := some "enabled",
                  position_state := some "not in position",
                  external_switch_edge_state := some "Rising edge is valid",
                  external_switch_level_state := some "low" } := by
  decide

/-- C6 amended: decoding "1010110" yields mode = position,
command source = rs232, command signal = PWM, amplifier = disabled,
in position, rising edge valid, and switch level high (per the code,
whose level mapping inverts its own docstring), each of the seven
characters decoded independently through the same two-way choice. -/
theorem c6_gst_decode_1010110 :
    motionStatusOf "1010110" =
      Except.ok { motion_mode := some "position",
                  speed_command_input := some "rs232",
                  speed_command_power := some "PWM",
                  amplifier := some "disabled",
                  position_state := some "in position",
                  external_switch_edge_state := some "Rising edge is valid",
                  external_switch_level_state := some "high" } ∧
    (∀ c0 c1 c2 c3 c4 c5 c6 : Char,
      motionStatusOf ⟨[c0, c1, c2, c3, c4, c5, c6]⟩ =
        Except.ok { motion_mode := bitChoice c0 "velocity" "position",
                    speed_command_input := bitChoice c1 "rs232" "analog",
                    speed_command_power := bitChoice c2 "analog voltage" "PWM",
                    amplifier := bitChoice c3 "disabled" "enabled",
                    position_state := bitChoice c4 "not in position" "in position",
                    external_switch_edge_state :=
                      bitChoice c5 "Falling edge is valid" "Rising edge is valid",
                    external_switch_level_state := bitChoice c6 "high" "low" }) := by
  exact ⟨by decide, fun c0 c1 c2 c3 c4 c5 c6 => rfl⟩

/-- C7: fault-status parsing maps character 0 to over-temperature,
1 to over-current, 2 to under-voltage and 3 to over-voltage, each bit
independently; "1000" yields over-temperature only, "0100" over-current
only, "0000" no faults, and "1111" all four flags. -/
theorem c7_fault_bit_mapping :
    (∀ a b c d : Bool, faultStatusOf (bitString [a, b, c, d]) =
        Except.ok { over_temperature := a, over_current := b,
                    under_voltage := c, over_voltage := d }) ∧
    faultStatusOf "1000" = Except.ok ⟨true, false, false, false⟩ ∧
    faultStatusOf "0100" = Except.ok ⟨false, true, false, false⟩ ∧
    faultStatusOf "0000" = Except.ok ⟨false, false, false, false⟩ ∧
    faultStatusOf "1111" = Except.ok ⟨true, true, true, true⟩ := by
  refine ⟨?_, by decide, by decide, by decide, by decide⟩
  intro a b c d
  cases a <;> cases b <;> cases c <;> cases d <;> decide

end HL2000

namespace HL2000

/-- Closed form of the scan: the returned mapping lists exactly the
qualifying ports, in scan order, each with its recorded discovery
entry. -/
theorem find_lamp_device_eq_filter (ps : List ProbePort) :
    find_lamp_device ps =
      (ps.filter (fun p => qualifiesPort p)).map (fun p => (p.name, discoveryOf p)) := by
  induction ps with
  | nil => rfl
  | cons p t ih =>
    cases hb : containsSub bluetoothMarker p.description with
    | true =>
      have hq : qualifiesPort p = false := by simp [qualifiesPort, hb]
      simp [find_lamp_device, hb, List.filter_cons, hq, ih]
    | false =>
      cases hp : p.probe with
      | none =>
        have hq : qualifiesPort p = false := by simp [qualifiesPort, hb, hp]
        simp [find_lamp_device, hb, hp, List.filter_cons, hq, ih]
      | some r =>
        cases hv : containsSub versionMarker (pyStripWs r) with
        | true =>
          have hq : qualifiesPort p = true := by simp [qualifiesPort, hb, hp, hv]
          simp [find_lamp_device, hb, hp, hv, List.filter_cons, hq, ih, discoveryOf]
        | false =>
          have hq : qualifiesPort p = false := by simp [qualifiesPort, hb, hp, hv]
          simp [find_lamp_device, hb, hp, hv, List.filter_cons, hq, ih]

/-- C8: the enumerator records a port exactly when it is not a
Bluetooth port, its probe answered (a failing open or query only skips
that port, the rest of the list is still scanned), and the stripped
reply contains the substring "Version"; Bluetooth ports are excluded
even when they would answer the version query, and when no port
qualifies the returned mapping is empty. -/
theorem c8_enumerator_characterization (ps : List ProbePort) :
    (∀ k d, (k, d) ∈ find_lamp_device ps ↔
      ∃ p, p ∈ ps ∧ p.name = k ∧ qualifiesPort p = true ∧ discoveryOf p = d) ∧
    (∀ p : ProbePort, qualifiesPort p = true ↔
      containsSub bluetoothMarker p.description = false ∧
      ∃ r, p.probe = some r ∧ containsSub versionMarker (pyStripWs r) = true) ∧
    ((∀ p ∈ ps, qualifiesPort p = false) → find_lamp_device ps = []) := by
  refine ⟨?_, ?_, ?_⟩
  · intro k d
    rw [find_lamp_device_eq_filter]
    simp only [List.mem_map, List.mem_filter, Prod.mk.injEq]
    constructor
    · rintro ⟨p, ⟨hmem, hq⟩, hk, hd⟩
      exact ⟨p, hmem, hk, hq, hd⟩
    · rintro ⟨p, hmem, hk, hq, hd⟩
      exact ⟨p, ⟨hmem, hq⟩, hk, hd⟩
  · intro p
    cases hp : p.probe with
    | none => simp [qualifiesPort, hp]
    | some r =>
      simp [qualifiesPort, hp, Bool.and_eq_true, Bool.not_eq_true']
  · intro h
    rw [find_lamp_device_eq_filter]
    have hnil : ps.filter (fun p => qualifiesPort p) = [] := by
      rw [List.filter_eq_nil_iff]
      intro a ha
      simp [h a ha]
    simp [hnil]

/-- C8 witness: on a scan list holding a Bluetooth port that would
answer the version query, a port whose probe fails, and a healthy lamp
port, exactly the lamp port is recorded. -/
theorem c8_witness :
    ("ASRL3::INSTR", (⟨"ri3", "Version 1.2"⟩ : DiscoveryEntry)) ∈
      find_lamp_device [btProbePort, failProbePort, goodProbePort] ∧
    ("ASRL1::INSTR", (⟨"ri1", "Version 9.9"⟩ : DiscoveryEntry)) ∉
      find_lamp_device [btProbePort, failProbePort, goodProbePort] := by
  constructor
  · exact ((c8_enumerator_characterization
        [btProbePort, failProbePort, goodProbePort]).1 _ _).mpr
      ⟨goodProbePort, by decide, by decide, by decide, by decide⟩
  · decide

/-- C9 counterexample: the typed getters do raise.  With no open handle
(for example a never-connected driver, where every transport access on
`None` raises and the query helper returns `None`), `get_coil_temperature`
raises `TypeError` from `float(None)`, `get_driver_current` raises
`AttributeError` from `None.strip`, and `get_fault_status` raises
`TypeError` from subscripting `None` — all propagate to the caller. -/
theorem c9_counterexample_typed_getters_raise :
    get_coil_temperature devNoHandle = Except.error PyErr.typeError ∧
    get_driver_current devNoHandle = Except.error PyErr.attributeError ∧
    get_fault_status devNoHandle = Except.error PyErr.typeError := by
  decide

/-- Fault parsing raises exactly on replies shorter than four
characters. -/
theorem faultStatusOf_error_iff (s : String) :
    (∃ e, faultStatusOf s = Except.error e) ↔ s.toList.length < 4 := by
  rcases hd : s.data with _ | ⟨c0, _ | ⟨c1, _ | ⟨c2, _ | ⟨c3, t⟩⟩⟩⟩ <;>
    simp [faultStatusOf, String.toList, hd]

/-- C9 amended: the transport-boundary helpers catch and log every
communication exception (so `_safe_scpi_query` returns a line or
`None`, never raising, and `get_firmware_version`/`get_shutter_position`
just pass that on), but the typed getters convert the query result
without guarding: each raises to its caller exactly when the query
failed (returned `None`) or the payload does not convert (unparsable
float, reply shorter than four characters). -/
theorem c9_failure_semantics (dev : Dev) :
    ((∃ e, get_coil_temperature dev = Except.error e) ↔
      safe_scpi_query dev "TEM" = none ∨
        ∃ s, safe_scpi_query dev "TEM" = some s ∧ pyFloatParse s = none) ∧
    ((∃ e, get_driver_current dev = Except.error e) ↔
      safe_scpi_query dev "GRC" = none ∨
        ∃ s, safe_scpi_query dev "GRC" = some s ∧ pyFloatParse (pyStripCRLF s) = none) ∧
    ((∃ e, get_fault_status dev = Except.error e) ↔
      safe_scpi_query dev "GFS" = none ∨
        ∃ s, safe_scpi_query dev "GFS" = some s ∧ s.toList.length < 4) := by
  refine ⟨?_, ?_, ?_⟩
  · cases hq : safe_scpi_query dev "TEM" with
    | none => simp [get_coil_temperature, hq]
    | some s =>
      cases hp : pyFloatParse s with
      | none => simp [get_coil_temperature, hq, hp]
      | some x => simp [get_coil_temperature, hq, hp]
  · cases hq : safe_scpi_query dev "GRC" with
    | none => simp [get_driver_current, hq]
    | some s =>
      cases hp : pyFloatParse (pyStripCRLF s) with
      | none => simp [get_driver_current, hq, hp]
      | some x => simp [get_driver_current, hq, hp]
  · cases hq : safe_scpi_query dev "GFS" with
    | none => simp [get_fault_status, hq]
    | some s => simpa [get_fault_status, hq] using faultStatusOf_error_iff s

/-- C9 witness: the no-handle transport makes the coil-temperature
getter raise, via the failed query. -/
theorem c9_witness : ∃ e, get_coil_temperature devNoHandle = Except.error e :=
  (c9_failure_semantics devNoHandle).1.mpr (Or.inl rfl)

end HL2000
